import Mathlib

/-!
Verification of the atomic YAML document store in
`src/prototypes/m0-yaml/src/main.rs` (struct `AtomicYamlWriter`).

The Rust code is shallowly embedded: the filesystem footprint of one target
path is a small record (`FsState`), the serializer (`serde_yaml`) is modelled
as an injective encoder with a partial-inverse decoder on a YAML value type,
and I/O failures are injected through an explicit `Fault` parameter that names
the operation which fails.  `write` and `read` follow the Rust control flow
statement by statement.
-/

set_option maxHeartbeats 1000000
set_option linter.unnecessarySeqFocus false

namespace Autarch

/-- Mirrors `struct Task` (main.rs lines 33-38). -/
structure Task where
  id : String
  title : String
  status : String
deriving Repr, DecidableEq

/-- Mirrors `struct TaskData` (main.rs lines 25-31).  `updated_at` is a
`chrono::DateTime<Utc>`, modelled abstractly as a `Nat` timestamp; `version`
is `u32` and `rev` is `u64`, modelled as `Nat` (no arithmetic in the code can
overflow them: `rev` is only compared and copied). -/
structure TaskData where
  version : Nat
  rev : Nat
  updated_at : Nat
  tasks : List Task
deriving Repr, DecidableEq

/-- The YAML data model, as far as `serde_yaml` uses it for `TaskData`. -/
inductive Yaml where
  | str (s : String)
  | num (n : Nat)
  | seq (items : List Yaml)
  | kvmap (entries : List (String × Yaml))

/-- `serde_yaml::to_string` restricted to one `Task`: serde serializes the
struct as a mapping of its fields in declaration order. -/
def encodeTask (t : Task) : Yaml :=
  .kvmap [("id", .str t.id), ("title", .str t.title), ("status", .str t.status)]

/-- The deserializer for one `Task`: partial inverse of `encodeTask`,
rejecting any value that does not match the schema. -/
def decodeTask : Yaml → Option Task
  | .kvmap [("id", .str i), ("title", .str t), ("status", .str st)] =>
      some { id := i, title := t, status := st }
  | _ => none

/-- Element-wise deserialization of a YAML sequence of tasks; fails if any
element fails (serde fails the whole `Vec<Task>` on the first bad element). -/
def decodeTasks : List Yaml → Option (List Task)
  | [] => some []
  | y :: ys =>
      match decodeTask y, decodeTasks ys with
      | some t, some ts => some (t :: ts)
      | _, _ => none

/-- `serde_yaml::to_string` for `TaskData` (main.rs line 120). -/
def encodeTaskData (d : TaskData) : Yaml :=
  .kvmap [("version", .num d.version), ("rev", .num d.rev),
          ("updated_at", .num d.updated_at),
          ("tasks", .seq (d.tasks.map encodeTask))]

/-- `serde_yaml::from_str::<TaskData>` (main.rs line 73): partial inverse of
`encodeTaskData`; any value not matching the schema is a decode error. -/
def decodeTaskData : Yaml → Option TaskData
  | .kvmap [("version", .num v), ("rev", .num r),
            ("updated_at", .num u), ("tasks", .seq ys)] =>
      (decodeTasks ys).map fun ts =>
        { version := v, rev := r, updated_at := u, tasks := ts }
  | _ => none

theorem decodeTask_encodeTask (t : Task) : decodeTask (encodeTask t) = some t := rfl

theorem decodeTasks_map_encodeTask (ts : List Task) :
    decodeTasks (ts.map encodeTask) = some ts := by
  induction ts with
  | nil => rfl
  | cons t ts ih => simp [decodeTasks, decodeTask_encodeTask, ih]

/-- Serialization round-trip at the value level. -/
theorem decodeTaskData_encodeTaskData (d : TaskData) :
    decodeTaskData (encodeTaskData d) = some d := by
  cases d
  simp [encodeTaskData, decodeTaskData, decodeTasks_map_encodeTask]

/-- Mirrors `enum AtomicWriteError` (main.rs lines 12-22).  Its three
variants are `Conflict`, `Locked` and `Io`; there is no serialization
variant. -/
inductive AtomicWriteError where
  | Conflict (expected found : Nat)
  | Locked
  | ioError
deriving Repr, DecidableEq

/-- The error actually surfaced by `read`/`write`, which return
`anyhow::Result`: either a typed `AtomicWriteError` (built explicitly and
converted with `.into()`), or an untyped error wrapped directly by the `?`
operator — `std::io::Error` (`ioFailure`) or `serde_yaml::Error`
(`yamlFailure`). -/
inductive AppError where
  | typed (e : AtomicWriteError)
  | ioFailure
  | yamlFailure
deriving Repr, DecidableEq

/-- Whether an `anyhow`-level error is one of the typed `AtomicWriteError`
variants (used to state claims about which errors are typed). -/
def isTypedError : AppError → Bool
  | .typed _ => true
  | _ => false

/-- Content of the temp file at `path.with_extension("tmp")`:
either some bytes were written and then the write failed (`halfWritten`),
or the full encoded document was written. -/
inductive TempContent where
  | halfWritten
  | written (y : Yaml)

/-- Filesystem footprint of one target path, as the Rust code observes it.
`target` is the content of the target file (`none` = file absent); `temp`
is the file at `path.with_extension("tmp")`; `lockFileExists` is the file
at `path.with_extension("lock")`; `lockHeld` says another process holds the
exclusive `fs2` lock on that lock file.  A held `fs2` lock is attached to an
open descriptor of the lock file, so a reachable state with `lockHeld = true`
also has `lockFileExists = true` and `parentExists = true`; the record itself
does not force this, theorems take it as a hypothesis where needed. -/
structure FsState where
  parentExists : Bool
  target : Option Yaml
  temp : Option TempContent
  lockFileExists : Bool
  lockHeld : Bool

/-- Injected I/O failure point inside `AtomicYamlWriter::write`.  `noFault`
is the normal run; the others name the fallible operation that returns an
`std::io::Error` (propagated by `?` as an untyped `anyhow` error). -/
inductive Fault where
  | noFault
  | atCreateDir
  | atOpenLock
  | atOpenTemp
  | atWriteTemp
  | atSyncTemp
  | atSyncDir
  | atRename
deriving Repr, DecidableEq

/-- `AtomicYamlWriter::read` (main.rs lines 53-77).  If the path does not
exist it returns the default document (`version 1`, `rev 0`, `updated_at`
`Utc::now()` — passed in as `now` — and no tasks) without touching the
filesystem.  Otherwise it opens the file, takes a shared lock (the exclusive
write lock lives on the separate lock file, so the shared lock on the target
always succeeds), reads the content and decodes it; a decode failure is the
untyped `serde_yaml` error.  The returned state is the filesystem after the
call. -/
def read (s : FsState) (now : Nat) : Except AppError TaskData × FsState :=
  match s.target with
  | none =>
      (.ok { version := 1, rev := 0, updated_at := now, tasks := [] }, s)
  | some y =>
      match decodeTaskData y with
      | some d => (.ok d, s)
      | none => (.error .yamlFailure, s)

/-- The temp-write/fsync/rename tail of `AtomicYamlWriter::write`
(main.rs lines 111-138), entered after the lock is acquired and the conflict
check has passed.  At this point the parent directory exists and the lock
file exists; the corresponding fields are set here because the caller passes
the pre-call state through unchanged.
Step by step: open the temp file (`create/truncate`); write the YAML bytes;
`sync_all` the temp file; open and `sync_all` the parent directory; `rename`
temp over target; drop the lock and `remove_file` the lock file.  An error
returns immediately via `?` — note there is no cleanup of the temp file and
no removal of the lock file on these paths. -/
def writeTempPhase (s : FsState) (data : TaskData) (fault : Fault) :
    Except AppError Unit × FsState :=
  if fault = .atOpenTemp then
    (.error .ioFailure, { s with parentExists := true, lockFileExists := true })
  else if fault = .atWriteTemp then
    (.error .ioFailure,
     { s with parentExists := true, lockFileExists := true,
              temp := some .halfWritten })
  else if fault = .atSyncTemp ∨ fault = .atSyncDir ∨ fault = .atRename then
    (.error .ioFailure,
     { s with parentExists := true, lockFileExists := true,
              temp := some (.written (encodeTaskData data)) })
  else
    (.ok (),
     { s with parentExists := true, lockFileExists := false,
              target := some (encodeTaskData data), temp := none })

/-- `AtomicYamlWriter::write` (main.rs lines 80-139).
1. `fs::create_dir_all(parent)` — creates the parent directory first.
2. Open (`create(true)`) the lock file at `path.with_extension("lock")` and
   `try_lock_exclusive`; if another process holds the lock this fails with the
   typed `Locked` error, after the directory and lock file already exist.
3. If `expected_rev` is `Some(expected)` and the target exists, re-read it
   under the lock; if `current.rev != expected` fail with the typed
   `Conflict { expected, found: current.rev }`.  A read that does not decode
   propagates the untyped `serde_yaml` error.  If `expected_rev` is `None`,
   or the target does not exist, the check is skipped.
4. Hand off to the temp-write/rename tail (`writeTempPhase`). -/
def write (s : FsState) (data : TaskData) (expectedRev : Option Nat) (fault : Fault) :
    Except AppError Unit × FsState :=
  if fault = .atCreateDir then (.error .ioFailure, s)
  else if fault = .atOpenLock then (.error .ioFailure, { s with parentExists := true })
  else if s.lockHeld then
    (.error (.typed .Locked), { s with parentExists := true, lockFileExists := true })
  else
    match expectedRev, s.target with
    | some expected, some y =>
        match decodeTaskData y with
        | some current =>
            if current.rev ≠ expected then
              (.error (.typed (.Conflict expected current.rev)),
               { s with parentExists := true, lockFileExists := true })
            else writeTempPhase s data fault
        | none =>
            (.error .yamlFailure, { s with parentExists := true, lockFileExists := true })
    | some _, none => writeTempPhase s data fault
    | none, _ => writeTempPhase s data fault

/-- If `writeTempPhase` succeeds, the resulting filesystem has the encoded
document at the target, no temp file, and no lock file. -/
theorem writeTempPhase_ok_state (s : FsState) (d : TaskData) (f : Fault)
    (h : (writeTempPhase s d f).1 = .ok ()) :
    (writeTempPhase s d f).2 =
      { s with parentExists := true, lockFileExists := false,
               target := some (encodeTaskData d), temp := none } := by
  unfold writeTempPhase at h ⊢
  split_ifs at h ⊢ <;> simp_all

/-- If `write` succeeds, the resulting filesystem has the encoded document at
the target, no temp file, and no lock file. -/
theorem write_ok_state (s : FsState) (d : TaskData) (er : Option Nat) (f : Fault)
    (h : (write s d er f).1 = .ok ()) :
    (write s d er f).2 =
      { s with parentExists := true, lockFileExists := false,
               target := some (encodeTaskData d), temp := none } := by
  unfold write at h ⊢
  split_ifs at h ⊢ <;> try cases h
  rcases er with _ | e <;> rcases ht : s.target with _ | y <;> simp only [ht] at h ⊢
  · exact writeTempPhase_ok_state s d f h
  · exact writeTempPhase_ok_state s d f h
  · exact writeTempPhase_ok_state s d f h
  · rcases hdec : decodeTaskData y with _ | cur <;> simp only [hdec] at h ⊢
    · cases h
    · split_ifs at h ⊢ <;> try cases h
      exact writeTempPhase_ok_state s d f h

/-- A document with the given `rev` and no tasks (version 1, timestamp 0). -/
def docWithRev (r : Nat) : TaskData :=
  { version := 1, rev := r, updated_at := 0, tasks := [] }

/-- A path whose target file does not exist yet (parent directory present,
no artifacts, lock free). -/
def initialState : FsState :=
  { parentExists := true, target := none, temp := none,
    lockFileExists := false, lockHeld := false }

/-- A target file persisted at revision 1. -/
def revOneState : FsState :=
  { parentExists := true, target := some (encodeTaskData (docWithRev 1)),
    temp := none, lockFileExists := false, lockHeld := false }

/-- A target file persisted at revision 2. -/
def revTwoState : FsState :=
  { parentExists := true, target := some (encodeTaskData (docWithRev 2)),
    temp := none, lockFileExists := false, lockHeld := false }

/-- A target file persisted at revision 0. -/
def revZeroState : FsState :=
  { parentExists := true, target := some (encodeTaskData (docWithRev 0)),
    temp := none, lockFileExists := false, lockHeld := false }

/-- N successful sequential writes starting from no file, each supplying the
document with `rev = k` for the k-th write and `expectedRev = k - 1`, the
convention every test and the `compareAndSwap` helper of the spec follow. -/
def seqWrites : Nat → FsState
  | 0 => initialState
  | n + 1 => (write (seqWrites n) (docWithRev (n + 1)) (some n) .noFault).2

theorem seqWrites_succ_state (n : Nat) :
    seqWrites (n + 1) =
      { parentExists := true, target := some (encodeTaskData (docWithRev (n + 1))),
        temp := none, lockFileExists := false, lockHeld := false } := by
  induction n with
  | zero => rfl
  | succ n ih =>
      show (write (seqWrites (n + 1)) (docWithRev (n + 2)) (some (n + 1)) .noFault).2 = _
      rw [ih]
      simp [write, writeTempPhase, decodeTaskData_encodeTaskData, docWithRev]

/-- Claim C1: for every target path whose file exists with persisted revision
`current.rev`, and every `expectedRev = some e` with `e ≠ current.rev`,
`write` fails with the typed `Conflict` error carrying `expected = e` and
`found = current.rev`, and the target file's content is byte-identical before
and after the failed attempt (the encoder is a function, so equal YAML values
are equal bytes). -/
theorem C1_stale_rev_conflict (s : FsState) (newDoc current : TaskData) (y : Yaml) (e : Nat)
    (hlock : s.lockHeld = false)
    (htarget : s.target = some y)
    (hdec : decodeTaskData y = some current)
    (hne : e ≠ current.rev) :
    (write s newDoc (some e) .noFault).1
        = .error (.typed (.Conflict e current.rev)) ∧
    (write s newDoc (some e) .noFault).2.target = s.target := by
  rcases s with ⟨pe, tg, tp, lf, lh⟩
  simp only at htarget hlock
  subst htarget hlock
  simp [write, hdec, Ne.symm hne]

/-- Witness for C1 at a file persisted at rev 2 and `expectedRev = some 1`. -/
theorem C1_stale_rev_conflict_witness :
    revTwoState.lockHeld = false ∧
    revTwoState.target = some (encodeTaskData (docWithRev 2)) ∧
    decodeTaskData (encodeTaskData (docWithRev 2)) = some (docWithRev 2) ∧
    (1 : Nat) ≠ (docWithRev 2).rev ∧
    ((write revTwoState (docWithRev 9) (some 1) .noFault).1
        = .error (.typed (.Conflict 1 (docWithRev 2).rev)) ∧
     (write revTwoState (docWithRev 9) (some 1) .noFault).2.target = revTwoState.target) :=
  ⟨rfl, rfl, rfl, by decide,
   C1_stale_rev_conflict revTwoState (docWithRev 9) (docWithRev 2)
     (encodeTaskData (docWithRev 2)) 1 rfl rfl rfl (by decide)⟩

/-- Claim C2 (code behaviour at the failing input): when the rename fails
after the temp file has been fully written, the target file is unchanged,
but the temp file is NOT deleted — it survives `write`'s return with the
partially-exposed content, contradicting the claim's cleanup half.  The same
holds for a failure at either fsync.  (main.rs lines 111-132 have no cleanup
on the `?`-propagated error paths.) -/
theorem C2_temp_survives_rename_failure :
    (write revOneState (docWithRev 2) (some 1) .atRename).1 = .error .ioFailure ∧
    (write revOneState (docWithRev 2) (some 1) .atRename).2.target = revOneState.target ∧
    (write revOneState (docWithRev 2) (some 1) .atRename).2.temp
        = some (.written (encodeTaskData (docWithRev 2))) :=
  ⟨rfl, rfl, rfl⟩

/-- Claim C3 counterexample: the code persists the supplied document
verbatim.  Starting from a file persisted at rev 0, one successful write
with matching `expectedRev = some 0` but a supplied document carrying
`rev = 5` leaves persisted rev 5, not 1 — so the persisted rev does not
increase by exactly 1 "regardless of what rev value the caller places in the
supplied document". -/
theorem C3_counterexample :
    (write revZeroState (docWithRev 5) (some 0) .noFault).1 = .ok () ∧
    ((write revZeroState (docWithRev 5) (some 0) .noFault).2.target.bind
        decodeTaskData).map TaskData.rev = some 5 ∧
    some (5 : Nat) ≠ some 1 :=
  ⟨rfl, rfl, by decide⟩

/-- Claim C3 (amended): a successful write persists the supplied document
verbatim, so the persisted rev equals the `rev` field of the supplied
document; the writer itself never increments it.  When the callers follow
the increment convention — the k-th write supplies `rev = k` with
`expectedRev = some (k-1)`, as the prototype's tests and the spec's
`compareAndSwap` do — every write increases the persisted rev by exactly 1,
and after N such sequential writes starting from no file a read reports
rev N (for N = 0 this is the rev-0 default). -/
theorem C3_rev_from_caller (s : FsState) (d : TaskData) (er : Option Nat) (f : Fault)
    (h : (write s d er f).1 = .ok ()) (n : Nat) :
    ((write s d er f).2.target.bind decodeTaskData).map TaskData.rev = some d.rev ∧
    (read (seqWrites n) 0).1.map TaskData.rev = .ok n := by
  constructor
  · rw [write_ok_state s d er f h]
    simp [decodeTaskData_encodeTaskData]
  · cases n with
    | zero => rfl
    | succ n =>
        rw [seqWrites_succ_state n]
        simp [read, decodeTaskData_encodeTaskData, docWithRev, Except.map]

/-- Witness for C3 (amended) at the first write into an empty directory and
at the chain of 2 sequential writes. -/
theorem C3_rev_from_caller_witness :
    (write initialState (docWithRev 1) none .noFault).1 = .ok () ∧
    (((write initialState (docWithRev 1) none .noFault).2.target.bind
        decodeTaskData).map TaskData.rev = some (docWithRev 1).rev ∧
     (read (seqWrites 2) 0).1.map TaskData.rev = .ok 2) :=
  ⟨rfl, C3_rev_from_caller initialState (docWithRev 1) none .noFault rfl 2⟩

/-- Claim C4: when the target file already exists (with any persisted
content, even content that does not decode) and `expectedRev` is `None`,
the conflict check is skipped unconditionally and the write succeeds,
replacing the existing document regardless of its current rev. -/
theorem C4_none_skips_check (s : FsState) (y : Yaml) (d : TaskData)
    (hlock : s.lockHeld = false) (htarget : s.target = some y) :
    (write s d none .noFault).1 = .ok () ∧
    (write s d none .noFault).2.target = some (encodeTaskData d) := by
  rcases s with ⟨pe, tg, tp, lf, lh⟩
  simp only at htarget hlock
  subst htarget hlock
  simp [write, writeTempPhase]

/-- Witness for C4: clobbering a rev-2 document with a rev-7 document and
no rev check. -/
theorem C4_none_skips_check_witness :
    revTwoState.lockHeld = false ∧
    revTwoState.target = some (encodeTaskData (docWithRev 2)) ∧
    ((write revTwoState (docWithRev 7) none .noFault).1 = .ok () ∧
     (write revTwoState (docWithRev 7) none .noFault).2.target
        = some (encodeTaskData (docWithRev 7))) :=
  ⟨rfl, rfl,
   C4_none_skips_check revTwoState (encodeTaskData (docWithRev 2)) (docWithRev 7) rfl rfl⟩

/-- A path whose lock is held by another writer.  A held `fs2` lock lives on
an open descriptor of the lock file, so in any reachable such state the lock
file and the parent directory exist; the hypotheses of C5 record this. -/
def heldLockState : FsState :=
  { parentExists := true, target := some (encodeTaskData (docWithRev 3)),
    temp := none, lockFileExists := true, lockHeld := true }

/-- Claim C5: when the exclusive lock cannot be acquired, `write` returns the
typed `Locked` error and the filesystem state is completely unchanged: target
untouched, no temp file created, no directory or lock artifact created or
modified (the lock file and parent directory necessarily already exist when
another writer holds the lock). -/
theorem C5_locked_noop (s : FsState) (d : TaskData) (er : Option Nat)
    (hheld : s.lockHeld = true)
    (hlockfile : s.lockFileExists = true)
    (hparent : s.parentExists = true) :
    (write s d er .noFault).1 = .error (.typed .Locked) ∧
    (write s d er .noFault).2 = s := by
  rcases s with ⟨pe, tg, tp, lf, lh⟩
  simp only at hheld hlockfile hparent
  subst hheld hlockfile hparent
  simp [write]

/-- Witness for C5 at a held lock over a rev-3 document. -/
theorem C5_locked_noop_witness :
    heldLockState.lockHeld = true ∧
    heldLockState.lockFileExists = true ∧
    heldLockState.parentExists = true ∧
    ((write heldLockState (docWithRev 4) (some 3) .noFault).1
        = .error (.typed .Locked) ∧
     (write heldLockState (docWithRev 4) (some 3) .noFault).2 = heldLockState) :=
  ⟨rfl, rfl, rfl, C5_locked_noop heldLockState (docWithRev 4) (some 3) rfl rfl rfl⟩

/-- A target file whose content does not decode as a `TaskData` document. -/
def badContentState : FsState :=
  { parentExists := true, target := some (.str "not a task document"),
    temp := none, lockFileExists := false, lockHeld := false }

/-- Claim C6 counterexample: at a file whose content does not decode, `read`
fails with the untyped `serde_yaml` error propagated by `?` — it is not a
typed error at all, because `enum AtomicWriteError` (main.rs lines 12-22)
has no `SerializationError` variant. -/
theorem C6_counterexample :
    (read badContentState 0).1 = .error .yamlFailure ∧
    isTypedError .yamlFailure = false :=
  ⟨rfl, rfl⟩

/-- Claim C6 (amended): for every path whose file exists but whose content
does not decode as a valid document, `read` fails with the `serde_yaml`
decode error — propagated untyped through `anyhow`, since the error enum has
no `SerializationError` variant — and not with `Conflict`, `Locked` or the
`Io` variant; the file's content is left unmodified, never silently
discarded or repaired. -/
theorem C6_decode_error_untyped (s : FsState) (y : Yaml) (now : Nat)
    (htarget : s.target = some y) (hdec : decodeTaskData y = none) :
    (read s now).1 = .error .yamlFailure ∧
    isTypedError .yamlFailure = false ∧
    (read s now).2 = s := by
  rcases s with ⟨pe, tg, tp, lf, lh⟩
  simp only at htarget
  subst htarget
  simp [read, hdec, isTypedError]

/-- Witness for C6 (amended) at a file holding a bare string. -/
theorem C6_decode_error_untyped_witness :
    badContentState.target = some (.str "not a task document") ∧
    decodeTaskData (.str "not a task document") = none ∧
    ((read badContentState 5).1 = .error .yamlFailure ∧
     isTypedError .yamlFailure = false ∧
     (read badContentState 5).2 = badContentState) :=
  ⟨rfl, rfl,
   C6_decode_error_untyped badContentState (.str "not a task document") 5 rfl rfl⟩

/-- A filesystem path as the prototype uses it: directory components, then a
final component rendered `stem` or `stem.ext`, with `stem` nonempty and
containing no dot — the shape of every path the prototype constructs, e.g.
`/tmp/yaml-test-basic.yml`. -/
structure RustPath where
  dir : List String
  stem : String
  ext : Option String
deriving Repr, DecidableEq

/-- Rust `Path::with_extension`: replaces the extension of the final
component (or adds one when there is none). -/
def withExtension (p : RustPath) (e : String) : RustPath :=
  { p with ext := some e }

/-- The final path component as a string. -/
def fileName (p : RustPath) : String :=
  match p.ext with
  | none => p.stem
  | some e => p.stem ++ "." ++ e

/-- The rendered path string. -/
def renderPath (p : RustPath) : String :=
  String.intercalate "/" (p.dir ++ [fileName p])

/-- The lock artifact path: `self.path.with_extension("lock")`
(main.rs line 87). -/
def lockPathOf (p : RustPath) : RustPath := withExtension p "lock"

/-- The transient working path: `self.path.with_extension("tmp")`
(main.rs line 112). -/
def tempPathOf (p : RustPath) : RustPath := withExtension p "tmp"

/-- The target path the prototype's first test uses. -/
def demoPath : RustPath :=
  { dir := ["", "tmp"], stem := "yaml-test-basic", ext := some "yml" }

/-- Claim C7 counterexample: for the target `/tmp/yaml-test-basic.yml`, the
lock artifact is `/tmp/yaml-test-basic.lock` — `with_extension` replaces the
`.yml` extension instead of appending `.lock`; and a write that fails with
`Conflict` returns with the lock file still present on disk, so it is not
the case that no artifact exists after every `write` returns. -/
theorem C7_counterexample :
    renderPath (lockPathOf demoPath) ≠ renderPath demoPath ++ ".lock" ∧
    (write revTwoState (docWithRev 9) (some 1) .noFault).2.lockFileExists = true := by
  constructor
  · decide
  · rfl

/-- Claim C7 (amended): the lock artifact path is the target path with its
extension replaced by `lock` (`with_extension`, not string append — the two
agree only for extensionless targets), and the transient working path is the
target with its extension replaced by `tmp`; after a write that returns
successfully, neither the temp file nor the lock file exists.  (A failed
write can leave the lock file behind — and the temp file too when it fails
after the temp file was created.) -/
theorem C7_artifact_paths (p : RustPath) (s : FsState) (d : TaskData)
    (er : Option Nat) (f : Fault)
    (hok : (write s d er f).1 = .ok ()) :
    lockPathOf p = { p with ext := some "lock" } ∧
    tempPathOf p = { p with ext := some "tmp" } ∧
    (write s d er f).2.temp = none ∧
    (write s d er f).2.lockFileExists = false := by
  refine ⟨rfl, rfl, ?_, ?_⟩ <;> rw [write_ok_state s d er f hok]

/-- Witness for C7 (amended) at the first write of the demo document. -/
theorem C7_artifact_paths_witness :
    (write initialState (docWithRev 1) none .noFault).1 = .ok () ∧
    (lockPathOf demoPath = { demoPath with ext := some "lock" } ∧
     tempPathOf demoPath = { demoPath with ext := some "tmp" } ∧
     (write initialState (docWithRev 1) none .noFault).2.temp = none ∧
     (write initialState (docWithRev 1) none .noFault).2.lockFileExists = false) :=
  ⟨rfl, C7_artifact_paths demoPath initialState (docWithRev 1) none .noFault rfl⟩

/-- Claim C8: for every path whose target file does not exist, `read`
returns the default document — `version 1`, `rev 0`, `updated_at` the
current time, empty task list — and performs no filesystem modification
whatsoever; in particular it creates no file. -/
theorem C8_read_missing_default (s : FsState) (now : Nat) (h : s.target = none) :
    (read s now).1 = .ok { version := 1, rev := 0, updated_at := now, tasks := [] } ∧
    (read s now).2 = s := by
  rcases s with ⟨pe, tg, tp, lf, lh⟩
  simp only at h
  subst h
  simp [read]

/-- Witness for C8 at an empty directory. -/
theorem C8_read_missing_default_witness :
    initialState.target = none ∧
    ((read initialState 42).1
        = .ok { version := 1, rev := 0, updated_at := 42, tasks := [] } ∧
     (read initialState 42).2 = initialState) :=
  ⟨rfl, C8_read_missing_default initialState 42 rfl⟩

/-- A document with one task, as in the prototype's first test. -/
def sampleDoc : TaskData :=
  { version := 1, rev := 1, updated_at := 7,
    tasks := [{ id := "task-1", title := "Test task", status := "pending" }] }

/-- Claim C9: a successful write of a document `d` followed by a read of the
same path returns a document whose payload (`tasks`) and `version` fields
are exactly those of `d` (serialization round-trip; in fact the returned
document is `d` itself). -/
theorem C9_write_read_roundtrip (s : FsState) (d : TaskData) (er : Option Nat) (f : Fault)
    (h : (write s d er f).1 = .ok ()) :
    ∃ d' : TaskData, (read (write s d er f).2 0).1 = .ok d' ∧
      d'.tasks = d.tasks ∧ d'.version = d.version := by
  refine ⟨d, ?_, rfl, rfl⟩
  rw [write_ok_state s d er f h]
  simp [read, decodeTaskData_encodeTaskData]

/-- Witness for C9: write then read of the one-task sample document. -/
theorem C9_write_read_roundtrip_witness :
    (write initialState sampleDoc none .noFault).1 = .ok () ∧
    (∃ d' : TaskData,
      (read (write initialState sampleDoc none .noFault).2 0).1 = .ok d' ∧
      d'.tasks = sampleDoc.tasks ∧ d'.version = sampleDoc.version) :=
  ⟨rfl, C9_write_read_roundtrip initialState sampleDoc none .noFault rfl⟩

/-- Claim C10: `fs::create_dir_all` on the target's parent runs first in
`write` (main.rs lines 81-84), before lock acquisition and the conflict
check, so for every run in which the directory creation itself does not
fail — whatever the outcome, including the `Locked` and `Conflict` failures —
the parent directory exists when `write` returns. -/
theorem C10_parent_dir_created_first (s : FsState) (d : TaskData)
    (er : Option Nat) (f : Fault) (h : f ≠ .atCreateDir) :
    (write s d er f).2.parentExists = true := by
  rcases s with ⟨pe, tg, tp, lf, lh⟩
  unfold write writeTempPhase
  repeat' split
  all_goals simp_all

/-- Witness for C10: a write that fails with `Locked` against a parent
directory that did not exist before the call still creates it. -/
theorem C10_parent_dir_created_first_witness :
    Fault.noFault ≠ Fault.atCreateDir ∧
    (write { parentExists := false, target := none, temp := none,
             lockFileExists := true, lockHeld := true }
        (docWithRev 1) (some 0) .noFault).2.parentExists = true :=
  ⟨by decide,
   C10_parent_dir_created_first
     { parentExists := false, target := none, temp := none,
       lockFileExists := true, lockHeld := true }
     (docWithRev 1) (some 0) .noFault (by decide)⟩
